import Mathlib

/-!
Shallow embedding of runtime/westend/src/weights/pallet_identity.rs:
the auto-benchmarked WeightInfo implementation of pallet_identity for the
Westend runtime.  Weight is u64; u64 saturating arithmetic is modelled on
Nat with explicit clamping at 2 ^ 64 - 1.  The u32 size parameters are
modelled as Nat; claims about the u32 domain carry an explicit bound.
-/

namespace PalletIdentityWeights

/-- Largest value of the 64-bit Weight type, 2 ^ 64 - 1. -/
def wMax : Nat := 18446744073709551615

/-- u64 saturating_add: clamps at wMax instead of wrapping. -/
def satAdd (a b : Nat) : Nat := min (a + b) wMax

/-- u64 saturating_mul: clamps at wMax instead of wrapping. -/
def satMul (a b : Nat) : Nat := min (a * b) wMax

/-- Modelled from the spec: the Storage Cost Provider supplies two
constants, cost-per-read and cost-per-write, for the active runtime
configuration.  In the source this is T::DbWeight, whose definition is not
part of this repository snapshot. -/
structure DbWeight where
  read : Nat
  write : Nat

/-- Modelled from the spec: batch form of the Storage Cost Provider, the
cost of n reads, one saturating multiplication of the per-read constant
by n. -/
def DbWeight.reads (db : DbWeight) (n : Nat) : Nat := satMul db.read n

/-- Modelled from the spec: batch form of the Storage Cost Provider, the
cost of n writes. -/
def DbWeight.writes (db : DbWeight) (n : Nat) : Nat := satMul db.write n

/-- fn add_registrar(r: u32) of the WeightInfo impl. -/
def add_registrar (db : DbWeight) (r : Nat) : Nat :=
  satAdd (satAdd (satAdd 27481000 (satMul 300000 r)) (db.reads 1)) (db.writes 1)

/-- fn set_identity(r: u32, x: u32) of the WeightInfo impl. -/
def set_identity (db : DbWeight) (r x : Nat) : Nat :=
  satAdd (satAdd (satAdd (satAdd 71220000 (satMul 269000 r)) (satMul 1814000 x))
    (db.reads 1)) (db.writes 1)

/-- fn set_subs_new(s: u32) of the WeightInfo impl. -/
def set_subs_new (db : DbWeight) (s : Nat) : Nat :=
  satAdd (satAdd (satAdd (satAdd (satAdd 52505000 (satMul 9913000 s))
    (db.reads 2)) (db.reads (satMul 1 s))) (db.writes 1)) (db.writes (satMul 1 s))

/-- fn set_subs_old(p: u32) of the WeightInfo impl. -/
def set_subs_old (db : DbWeight) (p : Nat) : Nat :=
  satAdd (satAdd (satAdd (satAdd 47853000 (satMul 3432000 p))
    (db.reads 2)) (db.writes 1)) (db.writes (satMul 1 p))

/-- fn clear_identity(r: u32, s: u32, x: u32) of the WeightInfo impl. -/
def clear_identity (db : DbWeight) (r s x : Nat) : Nat :=
  satAdd (satAdd (satAdd (satAdd (satAdd (satAdd 62074000 (satMul 169000 r))
    (satMul 3436000 s)) (satMul 1058000 x)) (db.reads 2)) (db.writes 2))
    (db.writes (satMul 1 s))

/-- fn request_judgement(r: u32, x: u32) of the WeightInfo impl. -/
def request_judgement (db : DbWeight) (r x : Nat) : Nat :=
  satAdd (satAdd (satAdd (satAdd 72697000 (satMul 316000 r)) (satMul 2064000 x))
    (db.reads 2)) (db.writes 1)

/-- fn cancel_request(r: u32, x: u32) of the WeightInfo impl. -/
def cancel_request (db : DbWeight) (r x : Nat) : Nat :=
  satAdd (satAdd (satAdd (satAdd 62349000 (satMul 203000 r)) (satMul 2048000 x))
    (db.reads 1)) (db.writes 1)

/-- fn set_fee(r: u32) of the WeightInfo impl. -/
def set_fee (db : DbWeight) (r : Nat) : Nat :=
  satAdd (satAdd (satAdd 10602000 (satMul 265000 r)) (db.reads 1)) (db.writes 1)

/-- fn set_account_id(r: u32) of the WeightInfo impl. -/
def set_account_id (db : DbWeight) (r : Nat) : Nat :=
  satAdd (satAdd (satAdd 12087000 (satMul 264000 r)) (db.reads 1)) (db.writes 1)

/-- fn set_fields(r: u32) of the WeightInfo impl. -/
def set_fields (db : DbWeight) (r : Nat) : Nat :=
  satAdd (satAdd (satAdd 10578000 (satMul 268000 r)) (db.reads 1)) (db.writes 1)

/-- fn provide_judgement(r: u32, x: u32) of the WeightInfo impl. -/
def provide_judgement (db : DbWeight) (r x : Nat) : Nat :=
  satAdd (satAdd (satAdd (satAdd 48552000 (satMul 279000 r)) (satMul 2067000 x))
    (db.reads 2)) (db.writes 1)

/-- fn kill_identity(r: u32, s: u32, x: u32) of the WeightInfo impl. -/
def kill_identity (db : DbWeight) (r s x : Nat) : Nat :=
  satAdd (satAdd (satAdd (satAdd (satAdd (satAdd 60031000 (satMul 140000 r))
    (satMul 3423000 s)) (satMul 3000 x)) (db.reads 3)) (db.writes 3))
    (db.writes (satMul 1 s))

/-- fn add_sub(s: u32) of the WeightInfo impl. -/
def add_sub (db : DbWeight) (s : Nat) : Nat :=
  satAdd (satAdd (satAdd 71751000 (satMul 185000 s)) (db.reads 3)) (db.writes 2)

/-- fn rename_sub(s: u32) of the WeightInfo impl. -/
def rename_sub (db : DbWeight) (s : Nat) : Nat :=
  satAdd (satAdd (satAdd 23607000 (satMul 23000 s)) (db.reads 2)) (db.writes 1)

/-- fn remove_sub(s: u32) of the WeightInfo impl. -/
def remove_sub (db : DbWeight) (s : Nat) : Nat :=
  satAdd (satAdd (satAdd 68696000 (satMul 160000 s)) (db.reads 3)) (db.writes 2)

/-- fn quit_sub(s: u32) of the WeightInfo impl. -/
def quit_sub (db : DbWeight) (s : Nat) : Nat :=
  satAdd (satAdd (satAdd 45448000 (satMul 155000 s)) (db.reads 2)) (db.writes 2)

/-- Saturating multiplication by a count that is itself the saturating
product 1 * b collapses to a single clamped product. -/
theorem satMul_one_mul (a b : Nat) : satMul a (satMul 1 b) = min (a * b) wMax := by
  unfold satMul
  simp only [one_mul]
  rcases le_total b wMax with h | h
  · rw [Nat.min_eq_left h]
  · rw [Nat.min_eq_right h]
    rcases Nat.eq_zero_or_pos a with ha | ha
    · subst ha
      simp
    · rw [Nat.min_eq_right (Nat.le_mul_of_pos_left wMax ha),
        Nat.min_eq_right (le_trans h (Nat.le_mul_of_pos_left b ha))]

/-- Clamping a sum whose left summand is already clamped is the same as
clamping the unclamped sum. -/
theorem min_add_min (x y : Nat) :
    min (min x wMax + y) wMax = min (x + y) wMax := by
  omega

/-- Clamping a sum whose right summand is already clamped is the same as
clamping the unclamped sum. -/
theorem add_min_min (x y : Nat) :
    min (x + min y wMax) wMax = min (x + y) wMax := by
  omega

/-- Closed form of add_registrar: a clamped affine expression. -/
theorem add_registrar_eq (db : DbWeight) (r : Nat) :
    add_registrar db r =
      min (27481000 + 300000 * r + db.read + db.write) wMax := by
  simp only [add_registrar, DbWeight.reads, DbWeight.writes, satAdd, satMul]
  simp only [min_add_min, add_min_min]
  all_goals
    first
    | rfl
    | (congr 1; ring)

/-- Closed form of set_identity: a clamped affine expression. -/
theorem set_identity_eq (db : DbWeight) (r x : Nat) :
    set_identity db r x =
      min (71220000 + 269000 * r + 1814000 * x + db.read + db.write) wMax := by
  simp only [set_identity, DbWeight.reads, DbWeight.writes, satAdd, satMul]
  simp only [min_add_min, add_min_min]
  all_goals
    first
    | rfl
    | (congr 1; ring)

/-- Closed form of set_subs_new: a clamped affine expression, with the
parameter also scaling the read and write counts. -/
theorem set_subs_new_eq (db : DbWeight) (s : Nat) :
    set_subs_new db s =
      min (52505000 + 9913000 * s + db.read * 2 + db.read * s + db.write +
        db.write * s) wMax := by
  simp only [set_subs_new, DbWeight.reads, DbWeight.writes]
  simp only [satMul_one_mul]
  simp only [satAdd, satMul]
  simp only [min_add_min, add_min_min]
  all_goals
    first
    | rfl
    | (congr 1; ring)

/-- Closed form of set_subs_old: a clamped affine expression, with the
parameter also scaling the write count. -/
theorem set_subs_old_eq (db : DbWeight) (p : Nat) :
    set_subs_old db p =
      min (47853000 + 3432000 * p + db.read * 2 + db.write + db.write * p)
        wMax := by
  simp only [set_subs_old, DbWeight.reads, DbWeight.writes]
  simp only [satMul_one_mul]
  simp only [satAdd, satMul]
  simp only [min_add_min, add_min_min]
  all_goals
    first
    | rfl
    | (congr 1; ring)

/-- Closed form of clear_identity: a clamped affine expression, with s
also scaling the write count. -/
theorem clear_identity_eq (db : DbWeight) (r s x : Nat) :
    clear_identity db r s x =
      min (62074000 + 169000 * r + 3436000 * s + 1058000 * x + db.read * 2 +
        db.write * 2 + db.write * s) wMax := by
  simp only [clear_identity, DbWeight.reads, DbWeight.writes]
  simp only [satMul_one_mul]
  simp only [satAdd, satMul]
  simp only [min_add_min, add_min_min]

/-- Closed form of request_judgement: a clamped affine expression. -/
theorem request_judgement_eq (db : DbWeight) (r x : Nat) :
    request_judgement db r x =
      min (72697000 + 316000 * r + 2064000 * x + db.read * 2 + db.write)
        wMax := by
  simp only [request_judgement, DbWeight.reads, DbWeight.writes, satAdd, satMul]
  simp only [min_add_min, add_min_min]
  all_goals
    first
    | rfl
    | (congr 1; ring)

/-- Closed form of cancel_request: a clamped affine expression. -/
theorem cancel_request_eq (db : DbWeight) (r x : Nat) :
    cancel_request db r x =
      min (62349000 + 203000 * r + 2048000 * x + db.read + db.write) wMax := by
  simp only [cancel_request, DbWeight.reads, DbWeight.writes, satAdd, satMul]
  simp only [min_add_min, add_min_min]
  all_goals
    first
    | rfl
    | (congr 1; ring)

/-- Closed form of set_fee: a clamped affine expression. -/
theorem set_fee_eq (db : DbWeight) (r : Nat) :
    set_fee db r = min (10602000 + 265000 * r + db.read + db.write) wMax := by
  simp only [set_fee, DbWeight.reads, DbWeight.writes, satAdd, satMul]
  simp only [min_add_min, add_min_min]
  all_goals
    first
    | rfl
    | (congr 1; ring)

/-- Closed form of set_account_id: a clamped affine expression. -/
theorem set_account_id_eq (db : DbWeight) (r : Nat) :
    set_account_id db r =
      min (12087000 + 264000 * r + db.read + db.write) wMax := by
  simp only [set_account_id, DbWeight.reads, DbWeight.writes, satAdd, satMul]
  simp only [min_add_min, add_min_min]
  all_goals
    first
    | rfl
    | (congr 1; ring)

/-- Closed form of set_fields: a clamped affine expression. -/
theorem set_fields_eq (db : DbWeight) (r : Nat) :
    set_fields db r = min (10578000 + 268000 * r + db.read + db.write) wMax := by
  simp only [set_fields, DbWeight.reads, DbWeight.writes, satAdd, satMul]
  simp only [min_add_min, add_min_min]
  all_goals
    first
    | rfl
    | (congr 1; ring)

/-- Closed form of provide_judgement: a clamped affine expression. -/
theorem provide_judgement_eq (db : DbWeight) (r x : Nat) :
    provide_judgement db r x =
      min (48552000 + 279000 * r + 2067000 * x + db.read * 2 + db.write)
        wMax := by
  simp only [provide_judgement, DbWeight.reads, DbWeight.writes, satAdd, satMul]
  simp only [min_add_min, add_min_min]
  all_goals
    first
    | rfl
    | (congr 1; ring)

/-- Closed form of kill_identity: a clamped affine expression, with s
also scaling the write count. -/
theorem kill_identity_eq (db : DbWeight) (r s x : Nat) :
    kill_identity db r s x =
      min (60031000 + 140000 * r + 3423000 * s + 3000 * x + db.read * 3 +
        db.write * 3 + db.write * s) wMax := by
  simp only [kill_identity, DbWeight.reads, DbWeight.writes]
  simp only [satMul_one_mul]
  simp only [satAdd, satMul]
  simp only [min_add_min, add_min_min]

/-- Closed form of add_sub: a clamped affine expression. -/
theorem add_sub_eq (db : DbWeight) (s : Nat) :
    add_sub db s =
      min (71751000 + 185000 * s + db.read * 3 + db.write * 2) wMax := by
  simp only [add_sub, DbWeight.reads, DbWeight.writes, satAdd, satMul]
  simp only [min_add_min, add_min_min]

/-- Closed form of rename_sub: a clamped affine expression. -/
theorem rename_sub_eq (db : DbWeight) (s : Nat) :
    rename_sub db s =
      min (23607000 + 23000 * s + db.read * 2 + db.write) wMax := by
  simp only [rename_sub, DbWeight.reads, DbWeight.writes, satAdd, satMul]
  simp only [min_add_min, add_min_min]
  all_goals
    first
    | rfl
    | (congr 1; ring)

/-- Closed form of remove_sub: a clamped affine expression. -/
theorem remove_sub_eq (db : DbWeight) (s : Nat) :
    remove_sub db s =
      min (68696000 + 160000 * s + db.read * 3 + db.write * 2) wMax := by
  simp only [remove_sub, DbWeight.reads, DbWeight.writes, satAdd, satMul]
  simp only [min_add_min, add_min_min]

/-- Closed form of quit_sub: a clamped affine expression. -/
theorem quit_sub_eq (db : DbWeight) (s : Nat) :
    quit_sub db s =
      min (45448000 + 155000 * s + db.read * 2 + db.write * 2) wMax := by
  simp only [quit_sub, DbWeight.reads, DbWeight.writes, satAdd, satMul]
  simp only [min_add_min, add_min_min]

/-- C1: every weight function of the identity-pallet WeightInfo
implementation is monotonically non-decreasing in every one of its size
parameters, the other parameters and the storage read/write unit costs
held fixed. -/
theorem C1_monotone :
    (∀ db a b, a ≤ b → add_registrar db a ≤ add_registrar db b) ∧
    (∀ db a b x, a ≤ b → set_identity db a x ≤ set_identity db b x) ∧
    (∀ db r a b, a ≤ b → set_identity db r a ≤ set_identity db r b) ∧
    (∀ db a b, a ≤ b → set_subs_new db a ≤ set_subs_new db b) ∧
    (∀ db a b, a ≤ b → set_subs_old db a ≤ set_subs_old db b) ∧
    (∀ db a b s x, a ≤ b → clear_identity db a s x ≤ clear_identity db b s x) ∧
    (∀ db r a b x, a ≤ b → clear_identity db r a x ≤ clear_identity db r b x) ∧
    (∀ db r s a b, a ≤ b → clear_identity db r s a ≤ clear_identity db r s b) ∧
    (∀ db a b x, a ≤ b → request_judgement db a x ≤ request_judgement db b x) ∧
    (∀ db r a b, a ≤ b → request_judgement db r a ≤ request_judgement db r b) ∧
    (∀ db a b x, a ≤ b → cancel_request db a x ≤ cancel_request db b x) ∧
    (∀ db r a b, a ≤ b → cancel_request db r a ≤ cancel_request db r b) ∧
    (∀ db a b, a ≤ b → set_fee db a ≤ set_fee db b) ∧
    (∀ db a b, a ≤ b → set_account_id db a ≤ set_account_id db b) ∧
    (∀ db a b, a ≤ b → set_fields db a ≤ set_fields db b) ∧
    (∀ db a b x, a ≤ b → provide_judgement db a x ≤ provide_judgement db b x) ∧
    (∀ db r a b, a ≤ b → provide_judgement db r a ≤ provide_judgement db r b) ∧
    (∀ db a b s x, a ≤ b → kill_identity db a s x ≤ kill_identity db b s x) ∧
    (∀ db r a b x, a ≤ b → kill_identity db r a x ≤ kill_identity db r b x) ∧
    (∀ db r s a b, a ≤ b → kill_identity db r s a ≤ kill_identity db r s b) ∧
    (∀ db a b, a ≤ b → add_sub db a ≤ add_sub db b) ∧
    (∀ db a b, a ≤ b → rename_sub db a ≤ rename_sub db b) ∧
    (∀ db a b, a ≤ b → remove_sub db a ≤ remove_sub db b) ∧
    (∀ db a b, a ≤ b → quit_sub db a ≤ quit_sub db b) := by
  refine ⟨?_, ?_, ?_, ?_, ?_, ?_, ?_, ?_, ?_, ?_, ?_, ?_, ?_, ?_, ?_, ?_, ?_,
    ?_, ?_, ?_, ?_, ?_, ?_, ?_⟩
  · intro db a b h
    simp only [add_registrar_eq]
    omega
  · intro db a b x h
    simp only [set_identity_eq]
    omega
  · intro db r a b h
    simp only [set_identity_eq]
    omega
  · intro db a b h
    simp only [set_subs_new_eq]
    have h1 : db.read * a ≤ db.read * b := Nat.mul_le_mul le_rfl h
    have h2 : db.write * a ≤ db.write * b := Nat.mul_le_mul le_rfl h
    omega
  · intro db a b h
    simp only [set_subs_old_eq]
    have h2 : db.write * a ≤ db.write * b := Nat.mul_le_mul le_rfl h
    omega
  · intro db a b s x h
    simp only [clear_identity_eq]
    omega
  · intro db r a b x h
    simp only [clear_identity_eq]
    have h2 : db.write * a ≤ db.write * b := Nat.mul_le_mul le_rfl h
    omega
  · intro db r s a b h
    simp only [clear_identity_eq]
    omega
  · intro db a b x h
    simp only [request_judgement_eq]
    omega
  · intro db r a b h
    simp only [request_judgement_eq]
    omega
  · intro db a b x h
    simp only [cancel_request_eq]
    omega
  · intro db r a b h
    simp only [cancel_request_eq]
    omega
  · intro db a b h
    simp only [set_fee_eq]
    omega
  · intro db a b h
    simp only [set_account_id_eq]
    omega
  · intro db a b h
    simp only [set_fields_eq]
    omega
  · intro db a b x h
    simp only [provide_judgement_eq]
    omega
  · intro db r a b h
    simp only [provide_judgement_eq]
    omega
  · intro db a b s x h
    simp only [kill_identity_eq]
    omega
  · intro db r a b x h
    simp only [kill_identity_eq]
    have h2 : db.write * a ≤ db.write * b := Nat.mul_le_mul le_rfl h
    omega
  · intro db r s a b h
    simp only [kill_identity_eq]
    omega
  · intro db a b h
    simp only [add_sub_eq]
    omega
  · intro db a b h
    simp only [rename_sub_eq]
    omega
  · intro db a b h
    simp only [remove_sub_eq]
    omega
  · intro db a b h
    simp only [quit_sub_eq]
    omega

/-- C1 witness: a concrete instance of the monotonicity theorem, for
add_registrar with realistic storage costs and 3 then 5 registrars. -/
theorem C1_monotone_witness :
    add_registrar ⟨25000000, 100000000⟩ 3 ≤ add_registrar ⟨25000000, 100000000⟩ 5 :=
  C1_monotone.1 ⟨25000000, 100000000⟩ 3 5 (by decide)

/-- C2: every weight function is a total function of its parameters (no
error or panic path in the embedding), and its result always lies within
the 64-bit Weight range: the saturating arithmetic clamps at wMax instead
of failing on overflow. -/
theorem C2_total :
    (∀ db r, add_registrar db r ≤ wMax) ∧
    (∀ db r x, set_identity db r x ≤ wMax) ∧
    (∀ db s, set_subs_new db s ≤ wMax) ∧
    (∀ db p, set_subs_old db p ≤ wMax) ∧
    (∀ db r s x, clear_identity db r s x ≤ wMax) ∧
    (∀ db r x, request_judgement db r x ≤ wMax) ∧
    (∀ db r x, cancel_request db r x ≤ wMax) ∧
    (∀ db r, set_fee db r ≤ wMax) ∧
    (∀ db r, set_account_id db r ≤ wMax) ∧
    (∀ db r, set_fields db r ≤ wMax) ∧
    (∀ db r x, provide_judgement db r x ≤ wMax) ∧
    (∀ db r s x, kill_identity db r s x ≤ wMax) ∧
    (∀ db s, add_sub db s ≤ wMax) ∧
    (∀ db s, rename_sub db s ≤ wMax) ∧
    (∀ db s, remove_sub db s ≤ wMax) ∧
    (∀ db s, quit_sub db s ≤ wMax) := by
  refine ⟨?_, ?_, ?_, ?_, ?_, ?_, ?_, ?_, ?_, ?_, ?_, ?_, ?_, ?_, ?_, ?_⟩ <;>
    intros <;>
    simp only [add_registrar_eq, set_identity_eq, set_subs_new_eq,
      set_subs_old_eq, clear_identity_eq, request_judgement_eq,
      cancel_request_eq, set_fee_eq, set_account_id_eq, set_fields_eq,
      provide_judgement_eq, kill_identity_eq, add_sub_eq, rename_sub_eq,
      remove_sub_eq, quit_sub_eq] <;>
    exact min_le_right _ _

/-- C3: every weight function is deterministic: two evaluations with equal
storage-cost constants and equal parameter values return the identical
Weight value. -/
theorem C3_deterministic :
    (∀ (d1 d2 : DbWeight) (r1 r2 : Nat), d1 = d2 → r1 = r2 →
      add_registrar d1 r1 = add_registrar d2 r2) ∧
    (∀ (d1 d2 : DbWeight) (r1 r2 x1 x2 : Nat), d1 = d2 → r1 = r2 → x1 = x2 →
      set_identity d1 r1 x1 = set_identity d2 r2 x2) ∧
    (∀ (d1 d2 : DbWeight) (s1 s2 : Nat), d1 = d2 → s1 = s2 →
      set_subs_new d1 s1 = set_subs_new d2 s2) ∧
    (∀ (d1 d2 : DbWeight) (p1 p2 : Nat), d1 = d2 → p1 = p2 →
      set_subs_old d1 p1 = set_subs_old d2 p2) ∧
    (∀ (d1 d2 : DbWeight) (r1 r2 s1 s2 x1 x2 : Nat), d1 = d2 → r1 = r2 →
      s1 = s2 → x1 = x2 → clear_identity d1 r1 s1 x1 = clear_identity d2 r2 s2 x2) ∧
    (∀ (d1 d2 : DbWeight) (r1 r2 x1 x2 : Nat), d1 = d2 → r1 = r2 → x1 = x2 →
      request_judgement d1 r1 x1 = request_judgement d2 r2 x2) ∧
    (∀ (d1 d2 : DbWeight) (r1 r2 x1 x2 : Nat), d1 = d2 → r1 = r2 → x1 = x2 →
      cancel_request d1 r1 x1 = cancel_request d2 r2 x2) ∧
    (∀ (d1 d2 : DbWeight) (r1 r2 : Nat), d1 = d2 → r1 = r2 →
      set_fee d1 r1 = set_fee d2 r2) ∧
    (∀ (d1 d2 : DbWeight) (r1 r2 : Nat), d1 = d2 → r1 = r2 →
      set_account_id d1 r1 = set_account_id d2 r2) ∧
    (∀ (d1 d2 : DbWeight) (r1 r2 : Nat), d1 = d2 → r1 = r2 →
      set_fields d1 r1 = set_fields d2 r2) ∧
    (∀ (d1 d2 : DbWeight) (r1 r2 x1 x2 : Nat), d1 = d2 → r1 = r2 → x1 = x2 →
      provide_judgement d1 r1 x1 = provide_judgement d2 r2 x2) ∧
    (∀ (d1 d2 : DbWeight) (r1 r2 s1 s2 x1 x2 : Nat), d1 = d2 → r1 = r2 →
      s1 = s2 → x1 = x2 → kill_identity d1 r1 s1 x1 = kill_identity d2 r2 s2 x2) ∧
    (∀ (d1 d2 : DbWeight) (s1 s2 : Nat), d1 = d2 → s1 = s2 →
      add_sub d1 s1 = add_sub d2 s2) ∧
    (∀ (d1 d2 : DbWeight) (s1 s2 : Nat), d1 = d2 → s1 = s2 →
      rename_sub d1 s1 = rename_sub d2 s2) ∧
    (∀ (d1 d2 : DbWeight) (s1 s2 : Nat), d1 = d2 → s1 = s2 →
      remove_sub d1 s1 = remove_sub d2 s2) ∧
    (∀ (d1 d2 : DbWeight) (s1 s2 : Nat), d1 = d2 → s1 = s2 →
      quit_sub d1 s1 = quit_sub d2 s2) := by
  refine ⟨?_, ?_, ?_, ?_, ?_, ?_, ?_, ?_, ?_, ?_, ?_, ?_, ?_, ?_, ?_, ?_⟩ <;>
    intros <;> subst_vars <;> rfl

/-- C3 witness: two evaluations of add_registrar with identical inputs and
identical cost constants agree. -/
theorem C3_deterministic_witness :
    add_registrar ⟨25000000, 100000000⟩ 10 = add_registrar ⟨25000000, 100000000⟩ 10 :=
  C3_deterministic.1 ⟨25000000, 100000000⟩ ⟨25000000, 100000000⟩ 10 10 rfl rfl

/-- C4: for every weight function and every size parameter, a parameter
value large enough that its per-unit coefficient times the parameter
overflows the 64-bit Weight type makes the function return the Weight
maximum, never a wrapped or undefined result. -/
theorem C4_overflow_saturates :
    (∀ db r, wMax < 300000 * r → add_registrar db r = wMax) ∧
    (∀ db r x, wMax < 269000 * r → set_identity db r x = wMax) ∧
    (∀ db r x, wMax < 1814000 * x → set_identity db r x = wMax) ∧
    (∀ db s, wMax < 9913000 * s → set_subs_new db s = wMax) ∧
    (∀ db p, wMax < 3432000 * p → set_subs_old db p = wMax) ∧
    (∀ db r s x, wMax < 169000 * r → clear_identity db r s x = wMax) ∧
    (∀ db r s x, wMax < 3436000 * s → clear_identity db r s x = wMax) ∧
    (∀ db r s x, wMax < 1058000 * x → clear_identity db r s x = wMax) ∧
    (∀ db r x, wMax < 316000 * r → request_judgement db r x = wMax) ∧
    (∀ db r x, wMax < 2064000 * x → request_judgement db r x = wMax) ∧
    (∀ db r x, wMax < 203000 * r → cancel_request db r x = wMax) ∧
    (∀ db r x, wMax < 2048000 * x → cancel_request db r x = wMax) ∧
    (∀ db r, wMax < 265000 * r → set_fee db r = wMax) ∧
    (∀ db r, wMax < 264000 * r → set_account_id db r = wMax) ∧
    (∀ db r, wMax < 268000 * r → set_fields db r = wMax) ∧
    (∀ db r x, wMax < 279000 * r → provide_judgement db r x = wMax) ∧
    (∀ db r x, wMax < 2067000 * x → provide_judgement db r x = wMax) ∧
    (∀ db r s x, wMax < 140000 * r → kill_identity db r s x = wMax) ∧
    (∀ db r s x, wMax < 3423000 * s → kill_identity db r s x = wMax) ∧
    (∀ db r s x, wMax < 3000 * x → kill_identity db r s x = wMax) ∧
    (∀ db s, wMax < 185000 * s → add_sub db s = wMax) ∧
    (∀ db s, wMax < 23000 * s → rename_sub db s = wMax) ∧
    (∀ db s, wMax < 160000 * s → remove_sub db s = wMax) ∧
    (∀ db s, wMax < 155000 * s → quit_sub db s = wMax) := by
  refine ⟨?_, ?_, ?_, ?_, ?_, ?_, ?_, ?_, ?_, ?_, ?_, ?_, ?_, ?_, ?_, ?_, ?_,
    ?_, ?_, ?_, ?_, ?_, ?_, ?_⟩ <;>
    intros db <;>
    intros <;>
    simp only [add_registrar_eq, set_identity_eq, set_subs_new_eq,
      set_subs_old_eq, clear_identity_eq, request_judgement_eq,
      cancel_request_eq, set_fee_eq, set_account_id_eq, set_fields_eq,
      provide_judgement_eq, kill_identity_eq, add_sub_eq, rename_sub_eq,
      remove_sub_eq, quit_sub_eq] <;>
    omega

/-- C4 witness: a concrete overflowing instance, add_registrar at a
parameter value of 2 to the 64. -/
theorem C4_overflow_saturates_witness :
    add_registrar ⟨0, 0⟩ 18446744073709551616 = wMax :=
  C4_overflow_saturates.1 ⟨0, 0⟩ 18446744073709551616 (by decide)

/-- C5 counterexample: with unit storage costs, setting the u32 size
parameter of add_registrar to the u32 maximum 4294967295 does not return
the Weight maximum: the affine value is far below wMax, so the claim as
stated is false on the code. -/
theorem C5_u32max_counterexample :
    ¬ (add_registrar ⟨1, 1⟩ 4294967295 = wMax) := by decide

/-- C5 amended: no u32 parameter value can fully saturate a weight
function; full saturation does occur when a size parameter, fed through
the same 64-bit saturating pipeline, reaches the Weight maximum itself:
each weight function then returns the Weight maximum for any storage
costs, and no error is raised. -/
theorem C5_weightmax_saturates :
    (∀ db, add_registrar db wMax = wMax) ∧
    (∀ db x, set_identity db wMax x = wMax) ∧
    (∀ db r, set_identity db r wMax = wMax) ∧
    (∀ db, set_subs_new db wMax = wMax) ∧
    (∀ db, set_subs_old db wMax = wMax) ∧
    (∀ db s x, clear_identity db wMax s x = wMax) ∧
    (∀ db r x, clear_identity db r wMax x = wMax) ∧
    (∀ db r s, clear_identity db r s wMax = wMax) ∧
    (∀ db x, request_judgement db wMax x = wMax) ∧
    (∀ db r, request_judgement db r wMax = wMax) ∧
    (∀ db x, cancel_request db wMax x = wMax) ∧
    (∀ db r, cancel_request db r wMax = wMax) ∧
    (∀ db, set_fee db wMax = wMax) ∧
    (∀ db, set_account_id db wMax = wMax) ∧
    (∀ db, set_fields db wMax = wMax) ∧
    (∀ db x, provide_judgement db wMax x = wMax) ∧
    (∀ db r, provide_judgement db r wMax = wMax) ∧
    (∀ db s x, kill_identity db wMax s x = wMax) ∧
    (∀ db r x, kill_identity db r wMax x = wMax) ∧
    (∀ db r s, kill_identity db r s wMax = wMax) ∧
    (∀ db, add_sub db wMax = wMax) ∧
    (∀ db, rename_sub db wMax = wMax) ∧
    (∀ db, remove_sub db wMax = wMax) ∧
    (∀ db, quit_sub db wMax = wMax) := by
  refine ⟨?_, ?_, ?_, ?_, ?_, ?_, ?_, ?_, ?_, ?_, ?_, ?_, ?_, ?_, ?_, ?_, ?_,
    ?_, ?_, ?_, ?_, ?_, ?_, ?_⟩ <;>
    intros <;>
    simp only [add_registrar_eq, set_identity_eq, set_subs_new_eq,
      set_subs_old_eq, clear_identity_eq, request_judgement_eq,
      cancel_request_eq, set_fee_eq, set_account_id_eq, set_fields_eq,
      provide_judgement_eq, kill_identity_eq, add_sub_eq, rename_sub_eq,
      remove_sub_eq, quit_sub_eq] <;>
    omega

/-- C6: with all size parameters at zero and under storage costs small
enough that the fixed portion cannot clamp, every weight function returns
exactly its base constant plus its fixed read count times the per-read
cost plus its fixed write count times the per-write cost. -/
theorem C6_zero_baseline :
    ∀ db : DbWeight, 72697000 + 3 * db.read + 3 * db.write ≤ wMax →
      add_registrar db 0 = 27481000 + db.read + db.write ∧
      set_identity db 0 0 = 71220000 + db.read + db.write ∧
      set_subs_new db 0 = 52505000 + 2 * db.read + db.write ∧
      set_subs_old db 0 = 47853000 + 2 * db.read + db.write ∧
      clear_identity db 0 0 0 = 62074000 + 2 * db.read + 2 * db.write ∧
      request_judgement db 0 0 = 72697000 + 2 * db.read + db.write ∧
      cancel_request db 0 0 = 62349000 + db.read + db.write ∧
      set_fee db 0 = 10602000 + db.read + db.write ∧
      set_account_id db 0 = 12087000 + db.read + db.write ∧
      set_fields db 0 = 10578000 + db.read + db.write ∧
      provide_judgement db 0 0 = 48552000 + 2 * db.read + db.write ∧
      kill_identity db 0 0 0 = 60031000 + 3 * db.read + 3 * db.write ∧
      add_sub db 0 = 71751000 + 3 * db.read + 2 * db.write ∧
      rename_sub db 0 = 23607000 + 2 * db.read + db.write ∧
      remove_sub db 0 = 68696000 + 3 * db.read + 2 * db.write ∧
      quit_sub db 0 = 45448000 + 2 * db.read + 2 * db.write := by
  intro db h
  refine ⟨?_, ?_, ?_, ?_, ?_, ?_, ?_, ?_, ?_, ?_, ?_, ?_, ?_, ?_, ?_, ?_⟩ <;>
    simp only [add_registrar_eq, set_identity_eq, set_subs_new_eq,
      set_subs_old_eq, clear_identity_eq, request_judgement_eq,
      cancel_request_eq, set_fee_eq, set_account_id_eq, set_fields_eq,
      provide_judgement_eq, kill_identity_eq, add_sub_eq, rename_sub_eq,
      remove_sub_eq, quit_sub_eq] <;>
    omega

/-- C6 witness: the spec example, add_registrar with zero registrars and
unit storage costs equals its base constant plus one read plus one
write. -/
theorem C6_zero_baseline_witness :
    add_registrar ⟨1, 1⟩ 0 = 27481000 + 1 + 1 :=
  (C6_zero_baseline ⟨1, 1⟩ (by decide)).1

/-- C7: in every two-parameter weight function the two parameters
contribute independent additive terms with no cross term: whenever the
evaluation does not saturate, f(r, x) + f(0, 0) = f(r, 0) + f(0, x). -/
theorem C7_additive :
    (∀ db r x, set_identity db r x < wMax →
      set_identity db r x + set_identity db 0 0 =
        set_identity db r 0 + set_identity db 0 x) ∧
    (∀ db r x, request_judgement db r x < wMax →
      request_judgement db r x + request_judgement db 0 0 =
        request_judgement db r 0 + request_judgement db 0 x) ∧
    (∀ db r x, cancel_request db r x < wMax →
      cancel_request db r x + cancel_request db 0 0 =
        cancel_request db r 0 + cancel_request db 0 x) ∧
    (∀ db r x, provide_judgement db r x < wMax →
      provide_judgement db r x + provide_judgement db 0 0 =
        provide_judgement db r 0 + provide_judgement db 0 x) := by
  refine ⟨?_, ?_, ?_, ?_⟩ <;>
    intro db r x h <;>
    simp only [set_identity_eq, request_judgement_eq, cancel_request_eq,
      provide_judgement_eq] at h ⊢ <;>
    omega

/-- C7 witness: the additivity law for set_identity at unit storage costs
with 2 registrars and info length 3. -/
theorem C7_additive_witness :
    set_identity ⟨1, 1⟩ 2 3 + set_identity ⟨1, 1⟩ 0 0 =
      set_identity ⟨1, 1⟩ 2 0 + set_identity ⟨1, 1⟩ 0 3 :=
  C7_additive.1 ⟨1, 1⟩ 2 3 (by decide)

/-- C8: in the set-subs weight functions the parameter scales both the
linear compute term and the write count; whenever the evaluation at the
doubled parameter does not saturate, doubling the parameter doubles the
total marginal contribution over the zero-parameter value. -/
theorem C8_doubling :
    (∀ db s, set_subs_new db (2 * s) < wMax →
      set_subs_new db (2 * s) - set_subs_new db 0 =
        2 * (set_subs_new db s - set_subs_new db 0)) ∧
    (∀ db p, set_subs_old db (2 * p) < wMax →
      set_subs_old db (2 * p) - set_subs_old db 0 =
        2 * (set_subs_old db p - set_subs_old db 0)) := by
  constructor
  · intro db s h
    simp only [set_subs_new_eq] at h ⊢
    have e1 : db.read * (2 * s) = 2 * (db.read * s) := by ring
    have e2 : db.write * (2 * s) = 2 * (db.write * s) := by ring
    rw [e1, e2] at h ⊢
    omega
  · intro db p h
    simp only [set_subs_old_eq] at h ⊢
    have e2 : db.write * (2 * p) = 2 * (db.write * p) := by ring
    rw [e2] at h ⊢
    omega

/-- C8 witness: the doubling law for set_subs_new at unit storage costs,
from 3 to 6 sub-identities. -/
theorem C8_doubling_witness :
    set_subs_new ⟨1, 1⟩ (2 * 3) - set_subs_new ⟨1, 1⟩ 0 =
      2 * (set_subs_new ⟨1, 1⟩ 3 - set_subs_new ⟨1, 1⟩ 0) :=
  C8_doubling.1 ⟨1, 1⟩ 3 (by decide)

/-- C9: every weight function returns at least its fixed base constant,
for all parameter values and any storage unit costs: every step after the
base is a saturating addition of a non-negative term. -/
theorem C9_base_lower_bound :
    (∀ db r, 27481000 ≤ add_registrar db r) ∧
    (∀ db r x, 71220000 ≤ set_identity db r x) ∧
    (∀ db s, 52505000 ≤ set_subs_new db s) ∧
    (∀ db p, 47853000 ≤ set_subs_old db p) ∧
    (∀ db r s x, 62074000 ≤ clear_identity db r s x) ∧
    (∀ db r x, 72697000 ≤ request_judgement db r x) ∧
    (∀ db r x, 62349000 ≤ cancel_request db r x) ∧
    (∀ db r, 10602000 ≤ set_fee db r) ∧
    (∀ db r, 12087000 ≤ set_account_id db r) ∧
    (∀ db r, 10578000 ≤ set_fields db r) ∧
    (∀ db r x, 48552000 ≤ provide_judgement db r x) ∧
    (∀ db r s x, 60031000 ≤ kill_identity db r s x) ∧
    (∀ db s, 71751000 ≤ add_sub db s) ∧
    (∀ db s, 23607000 ≤ rename_sub db s) ∧
    (∀ db s, 68696000 ≤ remove_sub db s) ∧
    (∀ db s, 45448000 ≤ quit_sub db s) := by
  refine ⟨?_, ?_, ?_, ?_, ?_, ?_, ?_, ?_, ?_, ?_, ?_, ?_, ?_, ?_, ?_, ?_⟩ <;>
    intros <;>
    simp only [add_registrar_eq, set_identity_eq, set_subs_new_eq,
      set_subs_old_eq, clear_identity_eq, request_judgement_eq,
      cancel_request_eq, set_fee_eq, set_account_id_eq, set_fields_eq,
      provide_judgement_eq, kill_identity_eq, add_sub_eq, rename_sub_eq,
      remove_sub_eq, quit_sub_eq, wMax] <;>
    omega

/-- C10: because parameters are 32-bit and every per-unit coefficient is
at most 9913000, the base-plus-coefficients compute portion of every
weight function never saturates: for u32-bounded parameters the
saturating chain coincides with exact addition and multiplication. -/
theorem C10_compute_exact :
    (∀ r, r < 4294967296 →
      satAdd 27481000 (satMul 300000 r) = 27481000 + 300000 * r) ∧
    (∀ r x, r < 4294967296 → x < 4294967296 →
      satAdd (satAdd 71220000 (satMul 269000 r)) (satMul 1814000 x) =
        71220000 + 269000 * r + 1814000 * x) ∧
    (∀ s, s < 4294967296 →
      satAdd 52505000 (satMul 9913000 s) = 52505000 + 9913000 * s) ∧
    (∀ p, p < 4294967296 →
      satAdd 47853000 (satMul 3432000 p) = 47853000 + 3432000 * p) ∧
    (∀ r s x, r < 4294967296 → s < 4294967296 → x < 4294967296 →
      satAdd (satAdd (satAdd 62074000 (satMul 169000 r)) (satMul 3436000 s))
        (satMul 1058000 x) = 62074000 + 169000 * r + 3436000 * s + 1058000 * x) ∧
    (∀ r x, r < 4294967296 → x < 4294967296 →
      satAdd (satAdd 72697000 (satMul 316000 r)) (satMul 2064000 x) =
        72697000 + 316000 * r + 2064000 * x) ∧
    (∀ r x, r < 4294967296 → x < 4294967296 →
      satAdd (satAdd 62349000 (satMul 203000 r)) (satMul 2048000 x) =
        62349000 + 203000 * r + 2048000 * x) ∧
    (∀ r, r < 4294967296 →
      satAdd 10602000 (satMul 265000 r) = 10602000 + 265000 * r) ∧
    (∀ r, r < 4294967296 →
      satAdd 12087000 (satMul 264000 r) = 12087000 + 264000 * r) ∧
    (∀ r, r < 4294967296 →
      satAdd 10578000 (satMul 268000 r) = 10578000 + 268000 * r) ∧
    (∀ r x, r < 4294967296 → x < 4294967296 →
      satAdd (satAdd 48552000 (satMul 279000 r)) (satMul 2067000 x) =
        48552000 + 279000 * r + 2067000 * x) ∧
    (∀ r s x, r < 4294967296 → s < 4294967296 → x < 4294967296 →
      satAdd (satAdd (satAdd 60031000 (satMul 140000 r)) (satMul 3423000 s))
        (satMul 3000 x) = 60031000 + 140000 * r + 3423000 * s + 3000 * x) ∧
    (∀ s, s < 4294967296 →
      satAdd 71751000 (satMul 185000 s) = 71751000 + 185000 * s) ∧
    (∀ s, s < 4294967296 →
      satAdd 23607000 (satMul 23000 s) = 23607000 + 23000 * s) ∧
    (∀ s, s < 4294967296 →
      satAdd 68696000 (satMul 160000 s) = 68696000 + 160000 * s) ∧
    (∀ s, s < 4294967296 →
      satAdd 45448000 (satMul 155000 s) = 45448000 + 155000 * s) := by
  refine ⟨?_, ?_, ?_, ?_, ?_, ?_, ?_, ?_, ?_, ?_, ?_, ?_, ?_, ?_, ?_, ?_⟩ <;>
    intros <;>
    simp only [satAdd, satMul, wMax] <;>
    omega

/-- C10 witness: the add_registrar compute portion is exact at the largest
u32 parameter value. -/
theorem C10_compute_exact_witness :
    satAdd 27481000 (satMul 300000 4294967295) = 27481000 + 300000 * 4294967295 :=
  C10_compute_exact.1 4294967295 (by decide)

end PalletIdentityWeights
